import Mathlib

/-!
Verification of the tenant-isolation and invite-code core of the
electricity-tracker worker (src/index.js, second iteration, plus the
multi-tenant migration script and the SQL schema in src/migrations).

The relational store (tables users, tenants, tenant_users, invite_codes,
vouchers, readings) is embedded as lists of rows; each HTTP handler is
embedded as a pure function from a store (and the request data) to a
result that carries the updated store on success.  SQLite specifics that
matter here are modelled explicitly: the NOCASE collation on users.email,
NULL comparison semantics, CHECK and UNIQUE constraints on vouchers, and
AUTOINCREMENT via explicit next-id counters.
-/

namespace ElecTrack

/-- ASCII single-quote character (code 39), used to build SQL text and
names such as the family-tenant name without quote characters appearing
in Lean literals. -/
def sq : String := String.singleton (Char.ofNat 39)

/-- ASCII lower-casing of one character, as the SQLite NOCASE collation
folds case: only the letters A to Z are folded. -/
def lowerChar (c : Char) : Char :=
  if c.isUpper then Char.ofNat (c.toNat + 32) else c

/-- SQLite NOCASE comparison: users.email is declared
TEXT UNIQUE NOT NULL COLLATE NOCASE (migrations/001_init.sql), so the
equality used by every email lookup is case-insensitive. -/
def nocaseEq (a b : String) : Bool :=
  a.data.map lowerChar == b.data.map lowerChar

/-- Model of bcrypt.hash(pw, 12): an injective tagging of the plaintext.
bcrypt.compare(p, h) is modelled as bcryptHash p == h. -/
def bcryptHash (pw : String) : String := "bcrypt12$" ++ pw

/-- Row of the users table.  The role column carries the super_admin
marker checked by tenantMiddleware. -/
structure UserRow where
  id : Nat
  email : String
  password : String
  role : String
  deriving Repr, DecidableEq

/-- Row of the tenants table. -/
structure TenantRow where
  id : Nat
  name : String
  subscription_status : String
  deriving Repr, DecidableEq

/-- Row of the tenant_users junction table (UNIQUE(tenant_id, user_id)). -/
structure TenantUserRow where
  tenant_id : Nat
  user_id : Nat
  role : String
  deriving Repr, DecidableEq

/-- Row of the invite_codes table.  expires_at is nullable in the schema;
times are modelled as natural numbers. -/
structure InviteRow where
  id : Nat
  tenant_id : Nat
  code : String
  created_by : Nat
  expires_at : Option Nat
  max_uses : Nat
  current_uses : Nat
  is_active : Bool
  deriving Repr, DecidableEq

/-- Row of the vouchers table.  tenant_id is the nullable column added by
the multi-tenant migration.  REAL amounts are modelled as integers, which
is enough for every property proved here. -/
structure VoucherRow where
  id : Nat
  user_id : Nat
  tenant_id : Option Nat
  token_number : String
  purchase_date : String
  rand_amount : Int
  kwh_amount : Int
  vat_amount : Int
  notes : Option String
  deriving Repr, DecidableEq

/-- Row of the readings table. -/
structure ReadingRow where
  id : Nat
  user_id : Nat
  tenant_id : Option Nat
  reading_value : Int
  reading_date : String
  notes : Option String
  deriving Repr, DecidableEq

/-- The relational store, with explicit AUTOINCREMENT counters. -/
structure Store where
  users : List UserRow
  tenants : List TenantRow
  tenant_users : List TenantUserRow
  invite_codes : List InviteRow
  vouchers : List VoucherRow
  readings : List ReadingRow
  nextUserId : Nat
  nextTenantId : Nat
  nextVoucherId : Nat
  deriving Repr, DecidableEq

/-- SQL comparison of a nullable DATETIME column with datetime(now):
a NULL expires_at compares false, as in SQLite. -/
def sqlAfter (expires_at : Option Nat) (now : Nat) : Bool :=
  match expires_at with
  | some t => now < t
  | none => false

/-- SQL equality where either side may be NULL: any comparison involving
NULL is not true, as in SQLite.  Used for tenant_id = ? with the bound
context id possibly null (super-admin sentinel context). -/
def sqlEqOpt (a b : Option Nat) : Bool :=
  match a, b with
  | some x, some y => x == y
  | _, _ => false

/-! ## Tenant resolver middleware (src/index.js lines 961 to 1009) -/

/-- The tenant context attached to a request by the middleware. -/
structure TenantCtx where
  id : Option Nat
  name : String
  role : String
  subscription_status : String
  deriving Repr, DecidableEq

/-- Outcome of the tenant middleware: a resolved context, or the 403
response with the error text No tenant access. -/
inductive TenantResolution where
  | ok (ctx : TenantCtx)
  | noTenantAccess
  deriving Repr, DecidableEq

/-- SELECT t.*, tu.role FROM tenants t JOIN tenant_users tu
ON t.id = tu.tenant_id WHERE tu.user_id = ? (first row). -/
def findTenantUserRow (s : Store) (uid : Nat) : Option (TenantRow × String) :=
  (s.tenant_users.find? (fun tu => tu.user_id == uid)).bind fun tu =>
    (s.tenants.find? (fun t => t.id == tu.tenant_id)).map fun t => (t, tu.role)

/-- SELECT role FROM users WHERE id = ? AND role = super_admin, tested
for row existence. -/
def isSuperAdminUser (s : Store) (uid : Nat) : Bool :=
  (s.users.find? (fun u => u.id == uid && u.role == "super_admin")).isSome

/-- The tenant middleware: resolve the membership row, fall back to the
super-admin sentinel context, otherwise reject with 403. -/
def tenantMiddleware (s : Store) (uid : Nat) : TenantResolution :=
  match findTenantUserRow s uid with
  | some (t, role) => .ok ⟨some t.id, t.name, role, t.subscription_status⟩
  | none =>
      if isSuperAdminUser s uid then
        .ok ⟨none, "System Admin", "super_admin", "active"⟩
      else
        .noTenantAccess

/-! ## Invite engine: POST /api/tenants/join (lines 2624 to 2670) and the
invite branch of POST /api/auth/register (lines 1138 to 1196) -/

/-- Error taxonomy for invite redemption.  The join handler emits only
invalidOrExpiredCode (the 400 response Invalid or expired invite code)
and alreadyMember; the exhaustedUses constructor is the distinct error
named by the specification, present so that statements about it can be
made, and is never produced by the embedded handler. -/
inductive JoinError where
  | invalidOrExpiredCode
  | alreadyMember
  | exhaustedUses
  deriving Repr, DecidableEq

/-- SELECT * FROM invite_codes WHERE code = ? AND is_active = 1 AND
expires_at > datetime(now) AND current_uses < max_uses (first row). -/
def lookupValidInvite (invites : List InviteRow) (now : Nat) (code : String) :
    Option InviteRow :=
  invites.find? fun i =>
    i.code == code && i.is_active && sqlAfter i.expires_at now &&
      decide (i.current_uses < i.max_uses)

/-- INSERT INTO tenant_users (tenant_id, user_id, role) VALUES (?, ?, ?). -/
def insertMembership (s : Store) (tid uid : Nat) (role : String) : Store :=
  { s with tenant_users := s.tenant_users ++ [⟨tid, uid, role⟩] }

/-- UPDATE invite_codes SET current_uses = current_uses + 1 WHERE id = ?. -/
def incInviteUses (s : Store) (inviteId : Nat) : Store :=
  { s with invite_codes := s.invite_codes.map fun i =>
      if i.id == inviteId then { i with current_uses := i.current_uses + 1 } else i }

/-- The join handler performs the membership insert and the counter
update as two separate statements (two separate prepare-run calls, no
batch and no explicit transaction).  Primitive writes are named so that
the reachable intermediate states of that sequence can be analysed. -/
inductive DBWrite where
  | insMembership (tid uid : Nat) (role : String)
  | incUses (inviteId : Nat)
  deriving Repr, DecidableEq

def applyWrite (s : Store) (w : DBWrite) : Store :=
  match w with
  | .insMembership tid uid role => insertMembership s tid uid role
  | .incUses iid => incInviteUses s iid

def applyWrites (s : Store) (ws : List DBWrite) : Store := ws.foldl applyWrite s

/-- The statement sequence issued by the join handler after validation. -/
def joinWriteSeq (invite : InviteRow) (uid : Nat) : List DBWrite :=
  [.insMembership invite.tenant_id uid "member", .incUses invite.id]

/-- Post-states reachable when execution may stop between the separate
statements: each single-statement implicit transaction either ran or did
not, so every prefix of the write sequence is a reachable post-state. -/
def crashStates (s : Store) (ws : List DBWrite) : List Store :=
  (List.range (ws.length + 1)).map fun k => applyWrites s (ws.take k)

/-- POST /api/tenants/join for an authenticated existing user. -/
def joinTenant (s : Store) (now uid : Nat) (code : String) :
    Sum JoinError Store :=
  match lookupValidInvite s.invite_codes now code with
  | none => .inl .invalidOrExpiredCode
  | some invite =>
      if (s.tenant_users.find? fun tu =>
            tu.tenant_id == invite.tenant_id && tu.user_id == uid).isSome then
        .inl .alreadyMember
      else
        .inr (applyWrites s (joinWriteSeq invite uid))

/-! ## Registration: POST /api/auth/register (lines 1082 to 1222) -/

structure RegisterReq where
  email : Option String
  password : Option String
  registrationKey : Option String
  inviteCode : Option String
  deriving Repr, DecidableEq

/-- Failure responses of the register handler (400, 409, 401). -/
inductive RegisterError where
  | missingFields
  | weakPassword
  | missingKeyOrInvite
  | duplicateEmail
  | wrongExistingPassword
  | alreadyMember
  deriving Repr, DecidableEq

/-- Success response: the updated store and the user id placed in the
signed token. -/
structure RegisterOk where
  store : Store
  userId : Nat
  deriving Repr, DecidableEq

/-- JS truthiness test on an optional string request field: absent or
empty counts as missing. -/
def falsyStr : Option String → Bool
  | none => true
  | some s => s == ""

/-- The fallback branch and the no-invite branch of registration: INSERT
INTO tenants (name) VALUES (email followed by the possessive s Family),
then insert the membership with role admin. -/
def createOwnTenant (s : Store) (uid : Nat) (email : String) : RegisterOk :=
  let tid := s.nextTenantId
  let s1 := { s with
    tenants := s.tenants ++ [⟨tid, email ++ sq ++ "s Family", "active"⟩],
    nextTenantId := tid + 1 }
  ⟨insertMembership s1 tid uid "admin", uid⟩

/-- The invite block of the register handler: look the code up with the
same validity conditions as the join endpoint; on success insert the
member row and bump the counter; on an invalid, expired or exhausted
code fall back to creating a brand-new tenant for the registrant. -/
def registerWithInvite (s : Store) (now uid : Nat) (email code : String) :
    Sum RegisterError RegisterOk :=
  match lookupValidInvite s.invite_codes now code with
  | some invite =>
      if (s.tenant_users.find? fun tu =>
            tu.tenant_id == invite.tenant_id && tu.user_id == uid).isSome then
        .inl .alreadyMember
      else
        .inr ⟨incInviteUses (insertMembership s invite.tenant_id uid "member")
                invite.id, uid⟩
  | none => .inr (createOwnTenant s uid email)

/-- POST /api/auth/register.  The duplicate check SELECT id, password
FROM users WHERE email = ? compares under the NOCASE collation of the
email column. -/
def registerHandler (s : Store) (now : Nat) (req : RegisterReq) :
    Sum RegisterError RegisterOk :=
  if falsyStr req.email || falsyStr req.password then .inl .missingFields
  else
    let email := req.email.getD ""
    let password := req.password.getD ""
    if password.length < 6 then .inl .weakPassword
    else if falsyStr req.registrationKey && falsyStr req.inviteCode then
      .inl .missingKeyOrInvite
    else
      match s.users.find? (fun u => nocaseEq u.email email) with
      | some existing =>
          if falsyStr req.inviteCode then .inl .duplicateEmail
          else if bcryptHash password == existing.password then
            registerWithInvite s now existing.id email (req.inviteCode.getD "")
          else .inl .wrongExistingPassword
      | none =>
          let newUser : UserRow := ⟨s.nextUserId, email, bcryptHash password, "user"⟩
          let s1 := { s with users := s.users ++ [newUser],
                             nextUserId := s.nextUserId + 1 }
          if falsyStr req.inviteCode then
            .inr (createOwnTenant s1 newUser.id email)
          else
            registerWithInvite s1 now newUser.id email (req.inviteCode.getD "")

/-! ## Voucher creation: POST /api/vouchers (lines 1711 to 1742), with
the CHECK and UNIQUE constraints of migrations/001_init.sql -/

structure VoucherReq where
  token : Option String
  purchase_date : Option String
  amount : Option Int
  units : Option Int
  vat : Option Int
  notes : Option String
  deriving Repr, DecidableEq

/-- Outcome of voucher creation: the 400 validation response, a failed
INSERT (CHECK or UNIQUE violation surfaces as the generic 500 response;
SQLite rejects the row atomically, so nothing is written), or success
with the new row id. -/
inductive CreateVoucherResult where
  | validationError
  | insertFailed
  | success (s' : Store) (id : Nat)
  deriving Repr, DecidableEq

/-- JS truthiness test on an optional numeric field: absent or zero
counts as missing (the handler tests with the bang operator). -/
def falsyInt : Option Int → Bool
  | none => true
  | some v => v == 0

/-- JS expression vat or-else 0: null and 0 both give 0. -/
def jsOr0 : Option Int → Int
  | none => 0
  | some v => v

/-- POST /api/vouchers: validate truthiness of the four required fields,
then INSERT with tenant_id from the resolved context and user_id from
the caller.  The INSERT is subject to CHECK(rand_amount > 0),
CHECK(kwh_amount > 0) and UNIQUE(user_id, token_number). -/
def createVoucher (s : Store) (uid : Nat) (ctxTenantId : Option Nat)
    (req : VoucherReq) : CreateVoucherResult :=
  if falsyStr req.token || falsyStr req.purchase_date ||
      falsyInt req.amount || falsyInt req.units then
    .validationError
  else
    let tk := req.token.getD ""
    let amount := req.amount.getD 0
    let units := req.units.getD 0
    let row : VoucherRow :=
      ⟨s.nextVoucherId, uid, ctxTenantId, tk, req.purchase_date.getD "",
        amount, units, jsOr0 req.vat, req.notes⟩
    if decide (0 < amount) && decide (0 < units) &&
        !(s.vouchers.any fun v => v.user_id == uid && v.token_number == tk) then
      .success { s with vouchers := s.vouchers ++ [row],
                        nextVoucherId := s.nextVoucherId + 1 } row.id
    else
      .insertFailed

/-! ## Voucher deletion: DELETE /api/vouchers/:id (lines 1745 to 1789) -/

/-- Outcome of voucher deletion, paired with the resulting store: the
handler returns 404 before issuing any DELETE when the scoped SELECT
finds no row, so the store is unchanged in that case. -/
inductive DeleteOutcome where
  | notFoundOrDenied
  | deleted (deletedId : Nat)
  deriving Repr, DecidableEq

/-- DELETE /api/vouchers/:id.  Both the existence check and the DELETE
use the predicate id = ? AND tenant_id = ?; the authenticated user id is
read by the handler but never used in either query, so any member of
the tenant can delete any voucher of that tenant. -/
def deleteVoucher (s : Store) (ctxTenantId : Option Nat) (vid : Nat) :
    DeleteOutcome × Store :=
  match s.vouchers.find? (fun v => v.id == vid && sqlEqOpt v.tenant_id ctxTenantId) with
  | none => (.notFoundOrDenied, s)
  | some _ =>
      (.deleted vid,
        { s with vouchers := s.vouchers.filter fun v =>
            !(v.id == vid && sqlEqOpt v.tenant_id ctxTenantId) })

/-! ## Export and tenant-scoped listing:
GET /api/export/data (lines 2673 to 2718) and the voucher query of
GET /api/transactions (lines 2485 to 2500, without a month filter) -/

structure ExportSummary where
  total_vouchers : Nat
  total_readings : Nat
  total_amount_spent : Int
  deriving Repr, DecidableEq

structure ExportData where
  vouchers : List VoucherRow
  readings : List ReadingRow
  summary : ExportSummary
  deriving Repr, DecidableEq

/-- SELECT * FROM vouchers WHERE tenant_id = ?, as used by both the
export handler and the transactions listing.  The ORDER BY clause of the
listing is omitted: the only property proved about the listing is a sum,
which is order-invariant. -/
def listTenantVouchers (s : Store) (ctxTenantId : Option Nat) : List VoucherRow :=
  s.vouchers.filter fun v => sqlEqOpt v.tenant_id ctxTenantId

/-- GET /api/export/data: dump the tenant rows and derive the summary.
The source folds sum plus (rand_amount or-else 0) over the voucher rows;
rand_amount is NOT NULL, and adding 0 for a zero amount is the identity,
so the fold adds rand_amount directly. -/
def exportTenantData (s : Store) (ctxTenantId : Option Nat) : ExportData :=
  let vs := listTenantVouchers s ctxTenantId
  let rs := s.readings.filter fun r => sqlEqOpt r.tenant_id ctxTenantId
  ⟨vs, rs, ⟨vs.length, rs.length, vs.foldl (fun acc v => acc + v.rand_amount) 0⟩⟩

/-- The export route as wired: app.use for /api/export runs auth and the
tenant middleware, and the handler itself performs no role check. -/
def exportEndpoint (s : Store) (uid : Nat) : Option ExportData :=
  match tenantMiddleware s uid with
  | .ok ctx => some (exportTenantData s ctx.id)
  | .noTenantAccess => none

/-! ## Migration script (src/unnamed/part_001, per-user loop at lines
107 to 145) -/

/-- One iteration of the migration loop for one user row: INSERT a fresh
tenant named from the email, INSERT OR IGNORE the admin membership for
that fresh tenant, then backfill tenant_id on the vouchers and readings
of that user WHERE tenant_id IS NULL. -/
def migrateUserStep (acc : Store) (user : UserRow) : Store :=
  let tid := acc.nextTenantId
  let acc1 : Store := { acc with
    tenants := acc.tenants ++ [⟨tid, user.email ++ sq ++ "s Family", "active"⟩],
    nextTenantId := tid + 1 }
  let acc2 : Store :=
    if acc1.tenant_users.any (fun tu => tu.tenant_id == tid && tu.user_id == user.id) then
      acc1
    else
      { acc1 with tenant_users := acc1.tenant_users ++ [⟨tid, user.id, "admin"⟩] }
  { acc2 with
    vouchers := acc2.vouchers.map fun v =>
      if v.user_id == user.id && v.tenant_id == none then
        { v with tenant_id := some tid } else v,
    readings := acc2.readings.map fun r =>
      if r.user_id == user.id && r.tenant_id == none then
        { r with tenant_id := some tid } else r }

/-- The data-migration phase of the script: SELECT * FROM users is read
once before the loop, and the loop body never changes the users table,
so folding the step over the initial user list is faithful. -/
def migrateStore (s : Store) : Store := s.users.foldl migrateUserStep s

/-! ## Month filter of GET /api/transactions (lines 2473 to 2482) -/

/-- The dateFilter fragment built by the handler when a month query
parameter is present: the parameter is concatenated verbatim between
single quotes into the SQL text, not bound as a parameter. -/
def monthParamFilter (month : String) : String :=
  "AND strftime(" ++ sq ++ "%Y-%m" ++ sq ++ ", purchase_date) = " ++
    sq ++ month ++ sq

/-- Number of single-quote characters in a string; a well-formed
month-equality fragment encloses its literal in exactly one quote pair,
so this count witnesses whether an input escaped the literal slot. -/
def countQuotes (s : String) : Nat := s.data.countP (fun c => c == Char.ofNat 39)

/-- A month input that closes the SQL string literal and appends an
always-true disjunct: 2024-01 then quote OR quote 1 quote = quote 1. -/
def injMonth : String :=
  "2024-01" ++ sq ++ " OR " ++ sq ++ "1" ++ sq ++ "=" ++ sq ++ "1"

/-- Redeemability as the specification states it: active, unexpired, and
uses remaining. -/
def inviteUsable (i : InviteRow) (now : Nat) : Prop :=
  i.is_active = true ∧ sqlAfter i.expires_at now = true ∧
    i.current_uses < i.max_uses

instance (i : InviteRow) (now : Nat) : Decidable (inviteUsable i now) := by
  unfold inviteUsable; infer_instance

/-! ## Concrete stores used by witnesses and counterexamples -/

/-- An invite with uses remaining, unexpired and active. -/
def invW : InviteRow := ⟨1, 1, "CODE1", 1, some 100, 2, 0, true⟩

/-- A store holding one tenant and the usable invite invW. -/
def csUsable : Store := ⟨[], [⟨1, "Fam", "active"⟩], [], [invW], [], [], 1, 2, 1⟩

/-- The same store with the invite exhausted: current_uses = max_uses = 1,
active and unexpired. -/
def csExhausted : Store :=
  ⟨[], [⟨1, "Fam", "active"⟩], [], [⟨1, 1, "CODE1", 1, some 100, 1, 1, true⟩],
    [], [], 1, 2, 1⟩

/-- The intermediate state of the join write sequence: the membership
insert ran, the counter update did not. -/
def midState : Store := applyWrites csUsable ((joinWriteSeq invW 7).take 1)

/-- A single-user pre-migration store: no tenants yet, one voucher and
one reading with NULL tenant_id. -/
def preMigStore : Store :=
  ⟨[⟨1, "a@x.com", "h", "user"⟩], [], [], [],
    [⟨1, 1, none, "T1", "2024-01-01", 100, 10, 0, none⟩],
    [⟨1, 1, none, 50, "2024-01-02", none⟩], 2, 1, 2⟩

/-- A store for the shared-household scenario: two tenants, a voucher
created by user 2 in tenant 1 and a voucher in tenant 2. -/
def csTwoTenants : Store :=
  ⟨[], [⟨1, "FamA", "active"⟩, ⟨2, "FamD", "active"⟩],
    [⟨1, 1, "admin"⟩, ⟨1, 2, "member"⟩, ⟨2, 4, "admin"⟩], [],
    [⟨10, 2, some 1, "T1", "2024-01-01", 100, 10, 0, none⟩,
     ⟨11, 4, some 2, "T2", "2024-01-02", 30, 3, 0, none⟩],
    [], 5, 3, 12⟩

/-- A store already holding the account Alice at x dot com, exactly as
produced by registering it on an empty store. -/
def cs9 : Store :=
  ⟨[⟨1, "Alice@x.com", bcryptHash "secret1", "user"⟩],
    [⟨1, "Alice@x.com" ++ sq ++ "s Family", "active"⟩],
    [⟨1, 1, "admin"⟩], [], [], [], 2, 2, 1⟩

/-! ## Helper lemmas -/

/-- A first-match lookup returns the unique element satisfying it. -/
lemma find?_eq_some_of_unique {α : Type} (l : List α) (f : α → Bool) (a : α)
    (hmem : a ∈ l) (hfa : f a = true)
    (huniq : ∀ x ∈ l, f x = true → x = a) :
    l.find? f = some a := by
  have hs : (l.find? f).isSome := List.find?_isSome.mpr ⟨a, hmem, hfa⟩
  obtain ⟨y, hy⟩ := Option.isSome_iff_exists.mp hs
  have hyl : y ∈ l := List.mem_of_find?_eq_some hy
  have hyf : f y = true := List.find?_some hy
  rw [hy, huniq y hyl hyf]

/-- From a singleton filter result: the element is in the list and
satisfies the predicate. -/
lemma of_filter_singleton {α : Type} {l : List α} {p : α → Bool} {a : α}
    (h : l.filter p = [a]) : a ∈ l ∧ p a = true := by
  have : a ∈ l.filter p := by rw [h]; exact List.mem_singleton.mpr rfl
  exact List.mem_filter.mp this

/-- From a singleton filter result: every element of the list satisfying
the predicate is that element. -/
lemma eq_of_filter_singleton {α : Type} {l : List α} {p : α → Bool} {a : α}
    (h : l.filter p = [a]) : ∀ x ∈ l, p x = true → x = a := by
  intro x hx hp
  have : x ∈ l.filter p := List.mem_filter.mpr ⟨hx, hp⟩
  rw [h] at this
  exact List.mem_singleton.mp this

/-- Folding addition of a projection equals the starting value plus the
sum of the mapped list. -/
lemma foldl_add_map {α : Type} (f : α → Int) (l : List α) (a : Int) :
    l.foldl (fun acc v => acc + f v) a = a + (l.map f).sum := by
  induction l generalizing a with
  | nil => simp
  | cons x xs ih => simp [List.foldl_cons, ih, add_assoc]

/-- sqlEqOpt against a non-null bound value tests equality with some. -/
lemma sqlEqOpt_some_iff (a : Option Nat) (t : Nat) :
    sqlEqOpt a (some t) = true ↔ a = some t := by
  cases a with
  | none => simp [sqlEqOpt]
  | some x => simp [sqlEqOpt]

/-- Quote counting distributes over concatenation. -/
lemma countQuotes_append (a b : String) :
    countQuotes (a ++ b) = countQuotes a + countQuotes b := by
  simp [countQuotes, String.data_append, List.countP_append]

/-- The validity predicate of the invite lookup implies the bare
code-match predicate. -/
lemma inviteLookupPred_code {now : Nat} {code : String} {i : InviteRow}
    (h : (i.code == code && i.is_active && sqlAfter i.expires_at now &&
      decide (i.current_uses < i.max_uses)) = true) : (i.code == code) = true := by
  simp only [Bool.and_eq_true] at h
  exact h.1.1.1

/-- For the unique row carrying a code, the invite lookup succeeds
exactly when the row is usable. -/
lemma lookupValidInvite_of_usable {invites : List InviteRow} {now : Nat}
    {code : String} {i : InviteRow}
    (hcode : invites.filter (fun r => r.code == code) = [i])
    (hu : inviteUsable i now) :
    lookupValidInvite invites now code = some i := by
  obtain ⟨hmem, hpi⟩ := of_filter_singleton hcode
  obtain ⟨hact, hexp, huses⟩ := hu
  apply find?_eq_some_of_unique
  · exact hmem
  · simp [hpi, hact, hexp, huses]
  · intro x hx hfx
    exact eq_of_filter_singleton hcode x hx (inviteLookupPred_code hfx)

/-- For the unique row carrying a code, the invite lookup fails when the
row is not usable. -/
lemma lookupValidInvite_of_not_usable {invites : List InviteRow} {now : Nat}
    {code : String} {i : InviteRow}
    (hcode : invites.filter (fun r => r.code == code) = [i])
    (hu : ¬ inviteUsable i now) :
    lookupValidInvite invites now code = none := by
  apply List.find?_eq_none.mpr
  intro x hx hfx
  have hxi : x = i := eq_of_filter_singleton hcode x hx (inviteLookupPred_code hfx)
  subst hxi
  simp only [Bool.and_eq_true, decide_eq_true_eq] at hfx
  exact hu ⟨hfx.1.1.2, hfx.1.2, hfx.2⟩

/-- Membership lookup of the join and register handlers fails when the
caller is not yet a member of the invite target tenant. -/
lemma membership_find_none {l : List TenantUserRow} {tid uid : Nat}
    (h : ∀ tu ∈ l, ¬(tu.tenant_id = tid ∧ tu.user_id = uid)) :
    l.find? (fun tu => tu.tenant_id == tid && tu.user_id == uid) = none := by
  apply List.find?_eq_none.mpr
  intro x hx hfx
  simp only [Bool.and_eq_true, beq_iff_eq] at hfx
  exact h x hx hfx

/-- A user with a unique membership row and a unique matching tenant row
is resolved by the middleware to that tenant context. -/
lemma tenantMiddleware_ok_of_filters {s : Store} {uid : Nat}
    {tu : TenantUserRow} {t : TenantRow}
    (htu : s.tenant_users.filter (fun r => r.user_id == uid) = [tu])
    (ht : s.tenants.filter (fun r => r.id == tu.tenant_id) = [t]) :
    tenantMiddleware s uid =
      .ok ⟨some t.id, t.name, tu.role, t.subscription_status⟩ := by
  have h1 : s.tenant_users.find? (fun r => r.user_id == uid) = some tu := by
    obtain ⟨hmem, hp⟩ := of_filter_singleton htu
    exact find?_eq_some_of_unique _ _ _ hmem hp (eq_of_filter_singleton htu)
  have h2 : s.tenants.find? (fun r => r.id == tu.tenant_id) = some t := by
    obtain ⟨hmem, hp⟩ := of_filter_singleton ht
    exact find?_eq_some_of_unique _ _ _ hmem hp (eq_of_filter_singleton ht)
  simp [tenantMiddleware, findTenantUserRow, h1, h2]

/-- A user with no membership row at all yields no join row. -/
lemma findTenantUserRow_none {s : Store} {uid : Nat}
    (h : ∀ tu ∈ s.tenant_users, tu.user_id ≠ uid) :
    findTenantUserRow s uid = none := by
  have : s.tenant_users.find? (fun r => r.user_id == uid) = none := by
    apply List.find?_eq_none.mpr
    intro x hx hfx
    exact h x hx (by simpa using hfx)
  simp [findTenantUserRow, this]

/-! ## C2: tenant resolver -/

/-- C2: for every authenticated user id, the middleware returns the
tenant context of the membership row when one exists; with no membership
and the super_admin marker on the users row it returns the sentinel
context with null tenant id and role super_admin; with neither it
rejects with NoTenantAccess and substitutes no default tenant. -/
theorem tenantMiddleware_resolution (s : Store) (uid : Nat) :
    (∀ tu : TenantUserRow, ∀ t : TenantRow,
        s.tenant_users.filter (fun r => r.user_id == uid) = [tu] →
        s.tenants.filter (fun r => r.id == tu.tenant_id) = [t] →
        tenantMiddleware s uid =
          .ok ⟨some t.id, t.name, tu.role, t.subscription_status⟩)
  ∧ ((∀ tu ∈ s.tenant_users, tu.user_id ≠ uid) →
      ((∃ u ∈ s.users, u.id = uid ∧ u.role = "super_admin") →
          tenantMiddleware s uid =
            .ok ⟨none, "System Admin", "super_admin", "active"⟩)
      ∧ ((¬ ∃ u ∈ s.users, u.id = uid ∧ u.role = "super_admin") →
          tenantMiddleware s uid = .noTenantAccess)) := by
  refine ⟨fun tu t htu ht => tenantMiddleware_ok_of_filters htu ht, fun hno => ?_⟩
  have hnone : findTenantUserRow s uid = none := findTenantUserRow_none hno
  constructor
  · intro ⟨u, hu, hid, hrole⟩
    have hsa : isSuperAdminUser s uid = true := by
      unfold isSuperAdminUser
      rw [Option.isSome_iff_exists]
      have : (s.users.find? fun r => r.id == uid && r.role == "super_admin").isSome :=
        List.find?_isSome.mpr ⟨u, hu, by simp [hid, hrole]⟩
      exact Option.isSome_iff_exists.mp this
    simp [tenantMiddleware, hnone, hsa]
  · intro hnsa
    have hsa : isSuperAdminUser s uid = false := by
      unfold isSuperAdminUser
      rw [Bool.eq_false_iff]
      intro hs
      obtain ⟨u, hu, hp⟩ := List.find?_isSome.mp hs
      simp only [Bool.and_eq_true, beq_iff_eq] at hp
      exact hnsa ⟨u, hu, hp.1, hp.2⟩
    simp [tenantMiddleware, hnone, hsa]

/-- Witness for C2 at a concrete store: a user with no membership row
and no super_admin marker is rejected with NoTenantAccess. -/
theorem tenantMiddleware_resolution_witness :
    tenantMiddleware csUsable 7 = TenantResolution.noTenantAccess :=
  ((tenantMiddleware_resolution csUsable 7).2 (by decide)).2 (by decide)

/-! ## C1: invite redemption (corrected) -/

/-- C1 amended: for the unique invite row carrying a code, redemption by
the join endpoint or by the invite branch of registration succeeds iff
is_active holds, the current time is before expires_at and
current_uses < max_uses, provided the caller is not already a member of
the target tenant; when the conjunction fails (in particular once
current_uses has reached max_uses, or when the code has expired while
uses remain) the join endpoint fails with the single InvalidOrExpiredCode
error, there being no distinct ExhaustedUses error, while the
registration branch falls back without consuming the code. -/
theorem invite_redemption_characterization (s : Store) (now uid : Nat)
    (code email : String) (i : InviteRow)
    (hcode : s.invite_codes.filter (fun r => r.code == code) = [i]) :
    (inviteUsable i now →
      (∀ tu ∈ s.tenant_users, ¬(tu.tenant_id = i.tenant_id ∧ tu.user_id = uid)) →
      ∃ s', joinTenant s now uid code = Sum.inr s'
        ∧ (⟨i.tenant_id, uid, "member"⟩ : TenantUserRow) ∈ s'.tenant_users)
  ∧ (¬ inviteUsable i now →
      joinTenant s now uid code = Sum.inl JoinError.invalidOrExpiredCode)
  ∧ (inviteUsable i now →
      (∀ tu ∈ s.tenant_users, ¬(tu.tenant_id = i.tenant_id ∧ tu.user_id = uid)) →
      ∃ ok, registerWithInvite s now uid email code = Sum.inr ok
        ∧ (⟨i.tenant_id, uid, "member"⟩ : TenantUserRow) ∈ ok.store.tenant_users)
  ∧ (¬ inviteUsable i now →
      ∃ ok, registerWithInvite s now uid email code = Sum.inr ok
        ∧ ok.store.invite_codes = s.invite_codes) := by
  refine ⟨?_, ?_, ?_, ?_⟩
  · intro hu hnm
    have hl := lookupValidInvite_of_usable hcode hu
    have hm := membership_find_none hnm
    refine ⟨applyWrites s (joinWriteSeq i uid), by simp [joinTenant, hl, hm], ?_⟩
    simp [applyWrites, joinWriteSeq, applyWrite, incInviteUses, insertMembership]
  · intro hu
    have hl := lookupValidInvite_of_not_usable hcode hu
    simp [joinTenant, hl]
  · intro hu hnm
    have hl := lookupValidInvite_of_usable hcode hu
    have hm := membership_find_none hnm
    refine ⟨⟨incInviteUses (insertMembership s i.tenant_id uid "member") i.id, uid⟩,
      by simp [registerWithInvite, hl, hm], ?_⟩
    simp [incInviteUses, insertMembership]
  · intro hu
    have hl := lookupValidInvite_of_not_usable hcode hu
    refine ⟨createOwnTenant s uid email, by simp [registerWithInvite, hl], ?_⟩
    simp [createOwnTenant, insertMembership]

/-- Witness for C1 at a concrete store: redeeming the usable invite
succeeds and inserts the member row. -/
theorem invite_redemption_characterization_witness :
    ∃ s', joinTenant csUsable 5 7 "CODE1" = Sum.inr s'
      ∧ (⟨1, 7, "member"⟩ : TenantUserRow) ∈ s'.tenant_users :=
  (invite_redemption_characterization csUsable 5 7 "CODE1" "e@x.com" invW
    (by decide)).1 (by decide) (by decide)

/-- Counterexample for C1 as stated: an exhausted, active, unexpired
invite is rejected by the join endpoint with the InvalidOrExpiredCode
error, which is not the distinct ExhaustedUses error the claim names. -/
theorem invite_exhausted_error_counterexample :
    joinTenant csExhausted 5 7 "CODE1" = Sum.inl JoinError.invalidOrExpiredCode
  ∧ JoinError.invalidOrExpiredCode ≠ JoinError.exhaustedUses := by decide

/-! ## C3: atomicity of redemption writes (code bug) -/

/-- C3 refuted on the code: the join handler issues the membership
insert and the counter increment as two separate single-statement
transactions, so the post-state in which the membership row exists while
current_uses is unchanged is reachable (a crash or failure between the
two statements leaves it); the successful run is exactly the two-write
sequence, and the intermediate state exhibits the partial application
the claim says is unreachable. -/
theorem join_partial_application_reachable :
    joinTenant csUsable 5 7 "CODE1" =
      Sum.inr (applyWrites csUsable (joinWriteSeq invW 7))
  ∧ midState ∈ crashStates csUsable (joinWriteSeq invW 7)
  ∧ (⟨1, 7, "member"⟩ : TenantUserRow) ∈ midState.tenant_users
  ∧ midState.invite_codes = csUsable.invite_codes := by decide

/-! ## C4: migration idempotence (code bug) -/

/-- C4 refuted on the code: the migration loop runs over every user row
with no check for an existing tenant linkage, so a second run creates a
second tenant and a second admin membership for an already-migrated
user; the voucher and reading backfills alone are guarded by the NULL
test and stay unchanged.  Row counts after two runs differ from the
counts after one run. -/
theorem migration_second_run_duplicates :
    (migrateStore preMigStore).tenants.length = 1
  ∧ (migrateStore preMigStore).tenant_users.length = 1
  ∧ (migrateStore (migrateStore preMigStore)).tenants.length = 2
  ∧ (migrateStore (migrateStore preMigStore)).tenant_users.length = 2
  ∧ (migrateStore (migrateStore preMigStore)).vouchers =
      (migrateStore preMigStore).vouchers
  ∧ (migrateStore (migrateStore preMigStore)).readings =
      (migrateStore preMigStore).readings
  ∧ (migrateStore (migrateStore preMigStore)).tenant_users ≠
      (migrateStore preMigStore).tenant_users := by decide

/-! ## C5: fallback on invalid invite at registration -/

/-- C5: a registration request with a well-formed email and password for
a fresh account, carrying an invite code that the validity lookup
rejects (invalid, expired or exhausted), is not rejected: the user row
is created, a brand-new tenant is created, and the registrant becomes
that tenant's admin, with the handler reporting success. -/
theorem register_invalid_invite_fallback (s : Store) (now : Nat)
    (e p code : String)
    (he : e ≠ "") (hp : 6 ≤ p.length) (hc : code ≠ "")
    (hnew : s.users.find? (fun u => nocaseEq u.email e) = none)
    (hinv : lookupValidInvite s.invite_codes now code = none) :
    ∃ ok : RegisterOk,
      registerHandler s now ⟨some e, some p, none, some code⟩ = Sum.inr ok
      ∧ ok.userId = s.nextUserId
      ∧ (∃ u ∈ ok.store.users, u.id = s.nextUserId ∧ u.email = e)
      ∧ (∃ t ∈ ok.store.tenants, t.id = s.nextTenantId)
      ∧ (⟨s.nextTenantId, s.nextUserId, "admin"⟩ : TenantUserRow) ∈
          ok.store.tenant_users := by
  have he' : (e == "") = false := by simpa using he
  have hc' : (code == "") = false := by simpa using hc
  have hp' : ¬ (p.length < 6) := Nat.not_lt.mpr hp
  have hpne : (p == "") = false := by
    simp only [beq_eq_false_iff_ne, ne_eq]
    intro h
    subst h
    simp at hp
  refine ⟨createOwnTenant
      { s with users := s.users ++ [⟨s.nextUserId, e, bcryptHash p, "user"⟩],
               nextUserId := s.nextUserId + 1 } s.nextUserId e, ?_, rfl, ?_, ?_, ?_⟩
  · simp [registerHandler, falsyStr, he', hpne, hp', hc', hnew, registerWithInvite,
      hinv]
  · exact ⟨⟨s.nextUserId, e, bcryptHash p, "user"⟩,
      by simp [createOwnTenant, insertMembership], rfl, rfl⟩
  · exact ⟨⟨s.nextTenantId, e ++ sq ++ "s Family", "active"⟩,
      by simp [createOwnTenant, insertMembership], rfl⟩
  · simp [createOwnTenant, insertMembership]

/-- Witness for C5: registering a fresh user on the store csUsable with
an invite code that matches no invite row falls back to a new tenant. -/
theorem register_invalid_invite_fallback_witness :
    ∃ ok : RegisterOk,
      registerHandler csUsable 5 ⟨some "b@x.com", some "secret1", none, some "BAD"⟩ =
        Sum.inr ok
      ∧ ok.userId = 1
      ∧ (∃ u ∈ ok.store.users, u.id = 1 ∧ u.email = "b@x.com")
      ∧ (∃ t ∈ ok.store.tenants, t.id = 2)
      ∧ (⟨2, 1, "admin"⟩ : TenantUserRow) ∈ ok.store.tenant_users :=
  register_invalid_invite_fallback csUsable 5 "b@x.com" "secret1" "BAD"
    (by decide) (by decide) (by decide) (by decide) (by decide)

/-! ## C6: tenant-scoped voucher deletion -/

/-- Bool form of the delete predicate is the stated row condition. -/
lemma deletePred_iff (v : VoucherRow) (vid tid : Nat) :
    (v.id == vid && sqlEqOpt v.tenant_id (some tid)) = true ↔
      (v.id = vid ∧ v.tenant_id = some tid) := by
  simp [sqlEqOpt_some_iff]

/-- C6: a delete-voucher request deletes iff a voucher with the given id
and the caller's tenant id exists (no per-user ownership condition: the
predicate never mentions the creator); when no such row exists, in
particular when the voucher belongs to another tenant, the handler
answers NotFoundOrDenied and the store is unchanged. -/
theorem deleteVoucher_tenant_scoped (s : Store) (tid vid : Nat) :
    ((∃ v ∈ s.vouchers, v.id = vid ∧ v.tenant_id = some tid) →
      ∃ s', deleteVoucher s (some tid) vid = (DeleteOutcome.deleted vid, s')
        ∧ (∀ v ∈ s'.vouchers, ¬(v.id = vid ∧ v.tenant_id = some tid))
        ∧ (∀ v ∈ s.vouchers, ¬(v.id = vid ∧ v.tenant_id = some tid) →
            v ∈ s'.vouchers)
        ∧ s'.readings = s.readings ∧ s'.tenant_users = s.tenant_users
        ∧ s'.users = s.users ∧ s'.tenants = s.tenants
        ∧ s'.invite_codes = s.invite_codes)
  ∧ ((¬ ∃ v ∈ s.vouchers, v.id = vid ∧ v.tenant_id = some tid) →
      deleteVoucher s (some tid) vid = (DeleteOutcome.notFoundOrDenied, s)) := by
  constructor
  · intro ⟨v0, hv0, hprop⟩
    have hs : (s.vouchers.find? fun v =>
        v.id == vid && sqlEqOpt v.tenant_id (some tid)).isSome :=
      List.find?_isSome.mpr ⟨v0, hv0, (deletePred_iff v0 vid tid).mpr hprop⟩
    obtain ⟨y, hy⟩ := Option.isSome_iff_exists.mp hs
    refine ⟨{ s with vouchers := s.vouchers.filter fun v =>
        !(v.id == vid && sqlEqOpt v.tenant_id (some tid)) },
      by simp only [deleteVoucher, hy], ?_, ?_, rfl, rfl, rfl, rfl, rfl⟩
    · intro v hv hcontra
      have hv' : v ∈ s.vouchers.filter
          (fun v => !(v.id == vid && sqlEqOpt v.tenant_id (some tid))) := hv
      have h3 : (v.id == vid && sqlEqOpt v.tenant_id (some tid)) = false := by
        have h2 := (List.mem_filter.mp hv').2
        cases hb : (v.id == vid && sqlEqOpt v.tenant_id (some tid)) with
        | false => rfl
        | true => rw [hb] at h2; simp at h2
      rw [(deletePred_iff v vid tid).mpr hcontra] at h3
      exact absurd h3 (by simp)
    · intro v hv hne
      show v ∈ s.vouchers.filter
        (fun v => !(v.id == vid && sqlEqOpt v.tenant_id (some tid)))
      refine List.mem_filter.mpr ⟨hv, ?_⟩
      have h3 : (v.id == vid && sqlEqOpt v.tenant_id (some tid)) = false := by
        by_contra hcon
        rw [Bool.not_eq_false] at hcon
        exact hne ((deletePred_iff v vid tid).mp hcon)
      simp [h3]
  · intro hno
    have hfind : (s.vouchers.find? fun v =>
        v.id == vid && sqlEqOpt v.tenant_id (some tid)) = none := by
      apply List.find?_eq_none.mpr
      intro x hx hp
      exact hno ⟨x, hx, (deletePred_iff x vid tid).mp hp⟩
    simp [deleteVoucher, hfind]

/-- Witness for C6: the admin of tenant 1 deletes the voucher its member
created, even though the admin is not the creator. -/
theorem deleteVoucher_tenant_scoped_witness :
    ∃ s', deleteVoucher csTwoTenants (some 1) 10 = (DeleteOutcome.deleted 10, s')
        ∧ (∀ v ∈ s'.vouchers, ¬(v.id = 10 ∧ v.tenant_id = some 1))
        ∧ (∀ v ∈ csTwoTenants.vouchers, ¬(v.id = 10 ∧ v.tenant_id = some 1) →
            v ∈ s'.vouchers)
        ∧ s'.readings = csTwoTenants.readings
        ∧ s'.tenant_users = csTwoTenants.tenant_users
        ∧ s'.users = csTwoTenants.users ∧ s'.tenants = csTwoTenants.tenants
        ∧ s'.invite_codes = csTwoTenants.invite_codes :=
  (deleteVoucher_tenant_scoped csTwoTenants 1 10).1
    ⟨⟨10, 2, some 1, "T1", "2024-01-01", 100, 10, 0, none⟩, by decide, by decide⟩

/-! ## C7: export round trip -/

/-- C7: any member of a tenant can export (the route carries no role
hypothesis: tu.role is arbitrary), and the export summary's total amount
spent equals the sum of rand_amount over the voucher rows of the export,
which equals the sum over the independent tenant-scoped listing. -/
theorem export_sum_roundtrip (s : Store) (uid : Nat)
    (tu : TenantUserRow) (t : TenantRow)
    (htu : s.tenant_users.filter (fun r => r.user_id == uid) = [tu])
    (ht : s.tenants.filter (fun r => r.id == tu.tenant_id) = [t]) :
    ∃ ed : ExportData, exportEndpoint s uid = some ed
      ∧ ed.summary.total_amount_spent = (ed.vouchers.map (fun v => v.rand_amount)).sum
      ∧ ed.summary.total_amount_spent =
          ((listTenantVouchers s (some t.id)).map (fun v => v.rand_amount)).sum := by
  have hmw := tenantMiddleware_ok_of_filters htu ht
  refine ⟨exportTenantData s (some t.id), by simp [exportEndpoint, hmw], ?_, ?_⟩
  · simp [exportTenantData, foldl_add_map]
  · simp [exportTenantData, listTenantVouchers, foldl_add_map]

/-- Witness for C7: the plain member (role member, user 2) of tenant 1
exports, and both sums agree. -/
theorem export_sum_roundtrip_witness :
    ∃ ed : ExportData, exportEndpoint csTwoTenants 2 = some ed
      ∧ ed.summary.total_amount_spent = (ed.vouchers.map (fun v => v.rand_amount)).sum
      ∧ ed.summary.total_amount_spent =
          ((listTenantVouchers csTwoTenants (some 1)).map (fun v => v.rand_amount)).sum :=
  export_sum_roundtrip csTwoTenants 2 ⟨1, 2, "member"⟩ ⟨1, "FamA", "active"⟩
    (by decide) (by decide)

/-! ## C8: voucher creation validation (corrected) -/

/-- C8 amended: voucher creation rejects with the 400 validation error
exactly the requests with a missing or zero amount, kWh, token or date
(JS truthiness); a strictly negative amount or kWh passes that check and
the INSERT is instead rejected by the CHECK constraints with the generic
500 error and no row written; on a successful insert exactly one row is
appended, carrying the caller's tenant id and user id. -/
theorem createVoucher_validation_characterization (s : Store) (uid : Nat)
    (ctx : Option Nat) :
    (∀ req : VoucherReq,
        (req.token = none ∨ req.token = some "" ∨ req.purchase_date = none ∨
         req.purchase_date = some "" ∨ req.amount = none ∨ req.amount = some 0 ∨
         req.units = none ∨ req.units = some 0) →
        createVoucher s uid ctx req = CreateVoucherResult.validationError)
  ∧ (∀ tk pd : String, ∀ a u : Int, ∀ vat notes,
      tk ≠ "" → pd ≠ "" → a ≠ 0 → u ≠ 0 →
      (¬(0 < a ∧ 0 < u) →
        createVoucher s uid ctx ⟨some tk, some pd, some a, some u, vat, notes⟩ =
          CreateVoucherResult.insertFailed)
      ∧ (0 < a → 0 < u →
          (∀ v ∈ s.vouchers, ¬(v.user_id = uid ∧ v.token_number = tk)) →
          createVoucher s uid ctx ⟨some tk, some pd, some a, some u, vat, notes⟩ =
            CreateVoucherResult.success
              { s with
                vouchers := s.vouchers ++
                  [⟨s.nextVoucherId, uid, ctx, tk, pd, a, u, jsOr0 vat, notes⟩],
                nextVoucherId := s.nextVoucherId + 1 } s.nextVoucherId)) := by
  constructor
  · intro req h
    rcases h with h | h | h | h | h | h | h | h <;>
      simp [createVoucher, falsyStr, falsyInt, h]
  · intro tk pd a u vat notes htk hpd ha hu
    have htk' : (tk == "") = false := by simpa using htk
    have hpd' : (pd == "") = false := by simpa using hpd
    have ha' : (a == 0) = false := by simpa using ha
    have hu' : (u == 0) = false := by simpa using hu
    constructor
    · intro hneg
      have : (decide (0 < a) && decide (0 < u)) = false := by
        rcases Decidable.not_and_iff_or_not.mp hneg with h | h <;> simp [h]
      simp [createVoucher, falsyStr, falsyInt, htk', hpd', ha', hu', this]
    · intro hap hup hnodup
      have hany : (s.vouchers.any fun v =>
          v.user_id == uid && v.token_number == tk) = false := by
        rw [List.any_eq_false]
        intro v hv
        simp only [Bool.and_eq_true, beq_iff_eq, not_and]
        intro h1 h2
        exact hnodup v hv ⟨h1, h2⟩
      simp [createVoucher, falsyStr, falsyInt, htk', hpd', ha', hu', hap, hup, hany]

/-- Witness for C8: a fully valid request succeeds and appends the row
with the caller's tenant and user ids. -/
theorem createVoucher_validation_witness :
    createVoucher csUsable 1 (some 1)
        ⟨some "T1", some "2024-01-01", some 100, some 10, none, none⟩ =
      CreateVoucherResult.success
        { csUsable with
          vouchers := csUsable.vouchers ++
            [⟨csUsable.nextVoucherId, 1, some 1, "T1", "2024-01-01", 100, 10,
              jsOr0 none, none⟩],
          nextVoucherId := csUsable.nextVoucherId + 1 } csUsable.nextVoucherId :=
  ((createVoucher_validation_characterization csUsable 1 (some 1)).2
    "T1" "2024-01-01" 100 10 none none (by decide) (by decide) (by decide)
    (by decide)).2 (by decide) (by decide) (by decide)

/-- Counterexample for C8 as stated: a request with a strictly negative
amount is not answered with the validation error; the handler's
truthiness check passes it and the INSERT fails instead. -/
theorem createVoucher_negative_amount_counterexample :
    createVoucher csUsable 1 (some 1)
        ⟨some "T1", some "2024-01-01", some (-5), some 10, none, none⟩ =
      CreateVoucherResult.insertFailed
  ∧ CreateVoucherResult.insertFailed ≠ CreateVoucherResult.validationError := by
  decide

/-! ## C9: case-insensitive duplicate email (corrected) -/

/-- C9 amended: the duplicate-detection lookup at registration compares
emails under the NOCASE collation, so a second registration attempt
whose email differs from an existing row only in letter case and which
supplies no invite code fails with DuplicateEmail; an attempt carrying
an invite code together with the account's correct password is instead
treated as an existing-user join or fallback and succeeds. -/
theorem register_duplicate_email_nocase (s : Store) (now : Nat)
    (e p k : String) (he : e ≠ "") (hp : 6 ≤ p.length) (hk : k ≠ "")
    (hdup : ∃ u ∈ s.users, nocaseEq u.email e = true) :
    registerHandler s now ⟨some e, some p, some k, none⟩ =
      Sum.inl RegisterError.duplicateEmail := by
  have he' : (e == "") = false := by simpa using he
  have hk' : (k == "") = false := by simpa using hk
  have hp' : ¬ (p.length < 6) := Nat.not_lt.mpr hp
  have hpne : (p == "") = false := by
    simp only [beq_eq_false_iff_ne, ne_eq]
    intro h
    subst h
    simp at hp
  obtain ⟨u, hu, hne⟩ := hdup
  have hs : (s.users.find? fun r => nocaseEq r.email e).isSome :=
    List.find?_isSome.mpr ⟨u, hu, hne⟩
  obtain ⟨u0, hu0⟩ := Option.isSome_iff_exists.mp hs
  simp [registerHandler, falsyStr, he', hpne, hp', hk', hu0]

/-- Witness for C9: a key-based attempt with the same email in lower
case is rejected as a duplicate. -/
theorem register_duplicate_email_nocase_witness :
    registerHandler cs9 5 ⟨some "alice@x.com", some "other123", some "KEY", none⟩ =
      Sum.inl RegisterError.duplicateEmail :=
  register_duplicate_email_nocase cs9 5 "alice@x.com" "other123" "KEY"
    (by decide) (by decide) (by decide) ⟨⟨1, "Alice@x.com", bcryptHash "secret1",
      "user"⟩, by decide, by decide⟩

/-- Counterexample for C9 as stated: the first registration of the email
succeeds, and a second attempt differing only in case does not fail with
DuplicateEmail when it carries an invite code and the correct password:
it succeeds, taking the existing-user invite path. -/
theorem register_case_insensitive_counterexample :
    registerHandler ⟨[], [], [], [], [], [], 1, 1, 1⟩ 5
        ⟨some "Alice@x.com", some "secret1", some "KEY", none⟩ =
      Sum.inr ⟨cs9, 1⟩
  ∧ registerHandler cs9 5 ⟨some "alice@x.com", some "secret1", none, some "NOPE"⟩ ≠
      Sum.inl RegisterError.duplicateEmail
  ∧ (registerHandler cs9 5
      ⟨some "alice@x.com", some "secret1", none, some "NOPE"⟩).isRight = true := by
  refine ⟨by decide, ?_, by decide⟩
  intro h
  have : (registerHandler cs9 5
      ⟨some "alice@x.com", some "secret1", none, some "NOPE"⟩).isRight = true := by
    decide
  rw [h] at this
  simp at this

/-! ## C10: month parameter spliced into the SQL text -/

/-- C10: the transactions handler splices the caller-supplied month
verbatim between quotes into the query text; for the injection input the
generated fragment is not the month-equality template applied to any
quote-free literal, so the parameter can alter the query structure
itself. -/
theorem transactions_month_splice_breaks_template :
    monthParamFilter injMonth =
      "AND strftime(" ++ sq ++ "%Y-%m" ++ sq ++ ", purchase_date) = " ++ sq ++
        "2024-01" ++ sq ++ " OR " ++ sq ++ "1" ++ sq ++ "=" ++ sq ++ "1" ++ sq
  ∧ (∀ v : String, countQuotes v = 0 →
      monthParamFilter injMonth ≠ monthParamFilter v) := by
  constructor
  · decide
  · intro v hv heq
    have cA : countQuotes "AND strftime(" = 0 := by decide
    have cB : countQuotes "%Y-%m" = 0 := by decide
    have cC : countQuotes ", purchase_date) = " = 0 := by decide
    have cq : countQuotes sq = 1 := by decide
    have h1 : countQuotes (monthParamFilter injMonth) = 8 := by decide
    have h2 : countQuotes (monthParamFilter v) = 4 := by
      simp [monthParamFilter, countQuotes_append, cA, cB, cC, cq, hv]
    rw [heq, h2] at h1
    exact absurd h1 (by decide)

/-- Witness for C10: the honestly encoded month 2024-01 is quote-free
and its fragment differs from the injected one. -/
theorem transactions_month_splice_witness :
    countQuotes "2024-01" = 0
  ∧ monthParamFilter injMonth ≠ monthParamFilter "2024-01" :=
  ⟨by decide, transactions_month_splice_breaks_template.2 "2024-01" (by decide)⟩

end ElecTrack
